import Mathlib

/-!
Shallow embedding of apt-private/private-download.cc: the trust gate
(CheckAuth / AuthPrompt), the reproducibility gate (CheckReproducible /
ReproduciblePrompt), the run orchestrator (AcquireRun), the free-space
preflight (CheckFreeSpaceBeforeDownload) and the auto-clean deletion hook
(LogCleaner::Erase).

External collaborators that the source file only calls (the global error
collector, the URI class of strutl.cc, YnPrompt, subprocess execution via
GetOutput, RemoveFile) are not part of the source file; they are modelled
from the spec where noted.  Effects are made explicit: each embedded
function returns its boolean result together with the error messages,
warnings and status-stream lines it emitted.  The global error collector
is modelled from the spec: Error produces a message and the value false
(hard error / gate denial), Warning produces a message and the value true
(non-fatal, proceed).  Message strings follow the source, with apostrophes
elided (e.g. "Couldn't" is rendered "Could not").
-/

/-- Status of a fetch item, after pkgAcquire::Item::ItemState. -/
inductive ItemState where
  | StatIdle
  | StatFetching
  | StatDone
  | StatError
  | StatAuthError
  | StatTransientNetworkError
  deriving DecidableEq

/-- Modelled from the spec: the URI class of strutl.cc (outside src/), kept
structured; credentials render as user[:password]@ between scheme and host. -/
structure URI where
  access : String
  user : String
  password : String
  host : String
  path : String

/-- Modelled from the spec: URI stringification (operator string of strutl.cc,
outside src/). -/
def URI.toStr (u : URI) : String :=
  u.access ++ "://" ++
    (if u.user = "" then ""
     else u.user ++ (if u.password = "" then "" else ":" ++ u.password) ++ "@") ++
    u.host ++ u.path

/-- A fetch item as seen by this file: descriptor URI (DescURI, kept in its
structured form since parsing lives outside src/), short description,
trust flag, status, completeness flag, error text. -/
structure Item where
  descURI : URI
  shortDesc : String
  isTrusted : Bool
  status : ItemState
  complete : Bool
  errorText : String

/-- The configuration keys the source file reads, with the defaults the
source passes to Find/FindB/FindI. -/
structure Config where
  allowUnauthenticated : Bool := false
  allowUnreproducible : Bool := false
  assumeYes : Bool := false
  forceYes : Bool := false
  quiet : Int := 0
  printURIs : Bool := false
  download : Bool := true
  sandboxUser : String := ""
  simulate : Bool := false

/-- Result of a gate function: boolean outcome, whether YnPrompt was reached,
and the emitted error / warning / status-stream lines. -/
structure PromptResult where
  ok : Bool
  prompted : Bool
  errors : List String
  warnings : List String
  c2out : List String

def authWarningHeader : String :=
  "WARNING: The following packages cannot be authenticated!"

def reproWarningHeader : String :=
  "WARNING: The following packages are not reproducible!"

/-- AuthPrompt (private-download.cc).  The user reply that YnPrompt would
return is passed in as ynAnswer; the prompted field records whether the
YnPrompt branch was reached. -/
def AuthPrompt (UntrustedList : List String) (PromptUser : Bool) (cfg : Config)
    (ynAnswer : Bool) : PromptResult :=
  let shown := authWarningHeader :: UntrustedList
  if cfg.allowUnauthenticated = true then
    { ok := true, prompted := false, errors := [], warnings := [],
      c2out := shown ++ ["Authentication warning overridden."] }
  else if PromptUser = false then
    { ok := false, prompted := false,
      errors := ["Some packages could not be authenticated"],
      warnings := [], c2out := shown }
  else if cfg.quiet < 2 ∧ cfg.assumeYes = false then
    if ynAnswer = true then
      { ok := true, prompted := true, errors := [], warnings := [], c2out := shown }
    else
      { ok := false, prompted := true,
        errors := ["Some packages could not be authenticated"],
        warnings := [], c2out := shown }
  else if cfg.forceYes = true then
    { ok := true, prompted := false, errors := [],
      warnings := ["--force-yes is deprecated, use one of the options starting with --allow instead."],
      c2out := shown }
  else
    { ok := false, prompted := false,
      errors := ["There were unauthenticated packages and -y was used without --allow-unauthenticated"],
      warnings := [], c2out := shown }

/-- CheckAuth (private-download.cc): collect the short descriptions of the
untrusted items; accept at once when there are none, else defer to
AuthPrompt. -/
def CheckAuth (items : List Item) (PromptUser : Bool) (cfg : Config)
    (ynAnswer : Bool) : PromptResult :=
  let UntrustedList := (items.filter (fun i => !i.isTrusted)).map Item.shortDesc
  if UntrustedList.isEmpty then
    { ok := true, prompted := false, errors := [], warnings := [], c2out := [] }
  else
    AuthPrompt UntrustedList PromptUser cfg ynAnswer

/-- ReproduciblePrompt (private-download.cc): same shape as AuthPrompt but
keyed on AllowUnreproducible and with its own wording. -/
def ReproduciblePrompt (UnreproducibleList : List String) (PromptUser : Bool)
    (cfg : Config) (ynAnswer : Bool) : PromptResult :=
  let shown := reproWarningHeader :: UnreproducibleList
  if cfg.allowUnreproducible = true then
    { ok := true, prompted := false, errors := [], warnings := [],
      c2out := shown ++ ["Unreproducible warning overridden."] }
  else if PromptUser = false then
    { ok := false, prompted := false,
      errors := ["Some packages are not reproducible"],
      warnings := [], c2out := shown }
  else if cfg.quiet < 2 ∧ cfg.assumeYes = false then
    if ynAnswer = true then
      { ok := true, prompted := true, errors := [], warnings := [], c2out := shown }
    else
      { ok := false, prompted := true,
        errors := ["Some packages are not reproducible"],
        warnings := [], c2out := shown }
  else if cfg.forceYes = true then
    { ok := true, prompted := false, errors := [],
      warnings := ["--force-yes is deprecated, use one of the options starting with --allow instead."],
      c2out := shown }
  else
    { ok := false, prompted := false,
      errors := ["There were unreproducible packages and -y was used without --allow-unreproducible"],
      warnings := [], c2out := shown }

/-- Environment for CheckReproducible: the outputs of the three subprocess
pipelines run through GetOutput (curl refresh of the status feed, the
apt-cache source-package lookup per binary package, the bunzip2 | jq filter
per resolved source package).  Within one invocation the suite, architecture
and cache file are fixed, so the latter two are keyed by the only varying
input.  none models GetOutput returning false (subprocess failure). -/
structure ReproEnv where
  updateOutput : Option String
  sourcePackageOutput : String → Option String
  jqOutput : String → Option String

/-- Source-package resolution of CheckReproducible: start from the binary
package name, replace it by the lookup output when that is non-empty. -/
def reproResolveSrc (binaryPkg out : String) : String :=
  if out.length > 0 then out else binaryPkg

/-- The per-item loop of CheckReproducible: abort with the hard error on any
subprocess failure, else record the binary package as unreproducible when
the jq filter produced no output. -/
def reproLoop (env : ReproEnv) : List Item → List String → Except String (List String)
  | [], acc => Except.ok acc
  | i :: rest, acc =>
    match env.sourcePackageOutput i.shortDesc with
    | none => Except.error "Could not check source package name"
    | some out =>
      match env.jqOutput (reproResolveSrc i.shortDesc out) with
      | none => Except.error "Could not filter reproducible status"
      | some jout =>
        reproLoop env rest (if jout.length = 0 then acc ++ [i.shortDesc] else acc)

/-- CheckReproducible (private-download.cc): bypass when AllowUnreproducible
is set; refresh the status feed (failure is a hard error); run the per-item
loop; accept when no item is unreproducible, else defer to
ReproduciblePrompt. -/
def CheckReproducible (items : List Item) (PromptUser : Bool) (cfg : Config)
    (env : ReproEnv) (ynAnswer : Bool) : PromptResult :=
  if cfg.allowUnreproducible = true then
    { ok := true, prompted := false, errors := [], warnings := [], c2out := [] }
  else
    match env.updateOutput with
    | none =>
      { ok := false, prompted := false,
        errors := ["Could not update reproducible cache"], warnings := [], c2out := [] }
    | some _ =>
      match reproLoop env items [] with
      | Except.error e =>
        { ok := false, prompted := false, errors := [e], warnings := [], c2out := [] }
      | Except.ok unrepro =>
        if unrepro.isEmpty then
          { ok := true, prompted := false, errors := [], warnings := [], c2out := [] }
        else
          ReproduciblePrompt unrepro PromptUser cfg ynAnswer

/-- Outcome of Fetcher.Run, after pkgAcquire::RunResult. -/
inductive RunResult where
  | Continue
  | Failed
  | Cancelled
  deriving DecidableEq

/-- The error message AcquireRun emits for a failed item: the DescURI with
User and Password cleared, then the recorded error text, joined as in the
format string "Failed to fetch %s  %s". -/
def fetchFailMsg (i : Item) : String :=
  "Failed to fetch " ++ (URI.toStr { i.descURI with user := "", password := "" }) ++
    "  " ++ i.errorText

/-- Aggregate outcome of AcquireRun: the returned boolean, the two
caller-supplied flags (none models a null pointer) and the emitted errors. -/
structure RunOutcome where
  ok : Bool
  failure : Option Bool
  transient : Option Bool
  errors : List String

/-- The per-item classification loop of AcquireRun: Done and complete is
skipped; Idle with a non-null transient flag marks that flag true; anything
else emits the sanitized fetch-failure error and marks the failure flag
true when it is non-null. -/
def acquireRunLoop : List Item → Option Bool → Option Bool → List String →
    Option Bool × Option Bool × List String
  | [], failure, transient, errs => (failure, transient, errs)
  | i :: rest, failure, transient, errs =>
    if i.status = ItemState.StatDone ∧ i.complete = true then
      acquireRunLoop rest failure transient errs
    else if transient.isSome = true ∧ i.status = ItemState.StatIdle then
      acquireRunLoop rest failure (some true) errs
    else
      acquireRunLoop rest (failure.map fun _ => true) transient
        (errs ++ [fetchFailMsg i])

/-- AcquireRun (private-download.cc).  The run result of the external fetch
engine is an input (the PulseInterval argument of the source only selects
which Run overload produces it); a Failed run returns false at once,
otherwise the items are classified and true is returned. -/
def AcquireRun (res : RunResult) (items : List Item)
    (failure transient : Option Bool) : RunOutcome :=
  if res = RunResult.Failed then
    { ok := false, failure := failure, transient := transient, errors := [] }
  else
    { ok := true,
      failure := (acquireRunLoop items failure transient []).1,
      transient := (acquireRunLoop items failure transient []).2.1,
      errors := (acquireRunLoop items failure transient []).2.2 }

/-- Errno classification used by CheckFreeSpaceBeforeDownload. -/
inductive StatErr where
  | EOVERFLOW
  | other
  deriving DecidableEq

/-- The statvfs fields the source reads. -/
structure StatvfsBuf where
  f_bsize : Nat
  f_bfree : Nat
  f_bavail : Nat

/-- The statfs field the source reads (HAVE_STRUCT_STATFS_F_TYPE builds). -/
structure StatfsBuf where
  f_type : Nat

def RAMFS_MAGIC : Nat := 0x858458f6

/-- Result of the space preflight: boolean outcome plus emitted errors and
warnings. -/
structure SpaceResult where
  ok : Bool
  errors : List String
  warnings : List String

/-- CheckFreeSpaceBeforeDownload (private-download.cc).  The statvfs and
statfs results for Dir are inputs (none models a failing statfs).  The
EOVERFLOW branch follows the spec model of WarningE (non-fatal, true);
the other stat failure and the insufficient-space branch follow the spec
model of Errno/Error (hard error, false).  FetchBytes / f_bsize is the
integer division of the source. -/
def CheckFreeSpaceBeforeDownload (Dir : String) (FetchBytes : Nat) (cfg : Config)
    (statvfsRes : Except StatErr StatvfsBuf) (statfsRes : Option StatfsBuf) :
    SpaceResult :=
  if cfg.printURIs = true ∨ cfg.download = false then
    { ok := true, errors := [], warnings := [] }
  else
    match statvfsRes with
    | Except.error e =>
      if e = StatErr.EOVERFLOW then
        { ok := true, errors := [],
          warnings := ["Could not determine free space in " ++ Dir] }
      else
        { ok := false,
          errors := ["Could not determine free space in " ++ Dir], warnings := [] }
    | Except.ok Buf =>
      let FreeBlocks := if cfg.sandboxUser = "" then Buf.f_bfree else Buf.f_bavail
      if FreeBlocks < FetchBytes / Buf.f_bsize then
        match statfsRes with
        | none =>
          { ok := false,
            errors := ["You do not have enough free space in " ++ Dir], warnings := [] }
        | some Stat =>
          if Stat.f_type ≠ RAMFS_MAGIC then
            { ok := false,
              errors := ["You do not have enough free space in " ++ Dir], warnings := [] }
          else
            { ok := true, errors := [], warnings := [] }
      else
        { ok := true, errors := [], warnings := [] }

/-- Modelled from the spec: SizeToStr of strutl.cc (outside src/) renders a
byte count; the decimal count stands in for the human-readable rendering. -/
def SizeToStr (n : Nat) : String := toString n

/-- An obsolete archive as the external traversal hands it to the deletion
hook: file path, inferred package, version and stat size. -/
structure CleanCandidate where
  file : String
  pkg : String
  ver : String
  size : Nat

/-- The log line LogCleaner::Erase writes to c1out. -/
def LogCleaner.EraseLine (c : CleanCandidate) : String :=
  "Del " ++ c.pkg ++ " " ++ c.ver ++ " [" ++ SizeToStr c.size ++ "B]"

/-- Modelled from the spec: RemoveFile (fileutl.cc, outside src/) deletes the
named file; the disk is a list of paths. -/
def RemoveFile (fs : List String) (file : String) : List String :=
  fs.filter (fun f => f ≠ file)

/-- LogCleaner::Erase (private-download.cc): always log the Del line, remove
the file only when simulation mode is off.  Returns the c1out lines and the
disk after the call. -/
def LogCleaner.Erase (cfg : Config) (c : CleanCandidate) (fs : List String) :
    List String × List String :=
  if cfg.simulate = false then ([LogCleaner.EraseLine c], RemoveFile fs c.file)
  else ([LogCleaner.EraseLine c], fs)

/-- Modelled from the spec: the external traversal (pkgArchiveCleaner::Go)
calls the Erase hook once per obsolete archive it finds; this folds the hook
over that sequence of calls. -/
def LogCleaner.Go (cfg : Config) : List CleanCandidate → List String →
    List String × List String
  | [], fs => ([], fs)
  | c :: rest, fs =>
    let first := LogCleaner.Erase cfg c fs
    let later := LogCleaner.Go cfg rest first.2
    (first.1 ++ later.1, later.2)

/-- A subprocess failure for one item of CheckReproducible: the
source-package lookup fails, or it succeeds and the jq filter on the
resolved source package fails. -/
def itemSubprocFails (env : ReproEnv) (i : Item) : Prop :=
  env.sourcePackageOutput i.shortDesc = none ∨
    ∃ out, env.sourcePackageOutput i.shortDesc = some out ∧
      env.jqOutput (reproResolveSrc i.shortDesc out) = none

/-- Concrete fixture: an item that ended in a terminal error state, with
credentials embedded in its URI. -/
def wTermErrItem : Item :=
  { descURI := ⟨"http", "alice", "secret", "host", "/p.deb"⟩,
    shortDesc := "pkg", isTrusted := true, status := ItemState.StatError,
    complete := false, errorText := "404 Not Found" }

/-- Concrete fixture: a successfully fetched item. -/
def wDoneItem : Item :=
  { descURI := ⟨"http", "", "", "host", "/ok.deb"⟩,
    shortDesc := "ok", isTrusted := true, status := ItemState.StatDone,
    complete := true, errorText := "" }

/-- Concrete fixture: an item left in Idle state. -/
def wIdleItem : Item :=
  { descURI := ⟨"http", "", "", "host", "/idle.deb"⟩,
    shortDesc := "idle", isTrusted := true, status := ItemState.StatIdle,
    complete := false, errorText := "" }

/-- Concrete fixture: an item whose jq snapshot-filter subprocess fails. -/
def wReproItem : Item :=
  { descURI := ⟨"http", "", "", "host", "/r.deb"⟩,
    shortDesc := "rpkg", isTrusted := true, status := ItemState.StatDone,
    complete := true, errorText := "" }

/-- Concrete fixture: a subprocess environment whose feed refresh succeeds,
whose source-package lookup succeeds, and whose jq filter fails. -/
def wReproEnv : ReproEnv :=
  { updateOutput := some "", sourcePackageOutput := fun _ => some "rsrc",
    jqOutput := fun _ => none }

/-- Concrete fixture: an obsolete archive as handed to the deletion hook. -/
def wCand : CleanCandidate :=
  { file := "a.deb", pkg := "a", ver := "1.0", size := 3 }

/-- Claim C1: a statvfs failure with EOVERFLOW makes
CheckFreeSpaceBeforeDownload emit a non-fatal warning naming the directory
and return true, for every directory, byte count and configuration that
actually reaches the stat (print-uris off, download on). -/
theorem checkFreeSpace_eoverflow_warns (Dir : String) (FetchBytes : Nat)
    (cfg : Config) (sf : Option StatfsBuf)
    (h1 : cfg.printURIs = false) (h2 : cfg.download = true) :
    CheckFreeSpaceBeforeDownload Dir FetchBytes cfg
        (Except.error StatErr.EOVERFLOW) sf =
      { ok := true, errors := [],
        warnings := ["Could not determine free space in " ++ Dir] } := by
  simp [CheckFreeSpaceBeforeDownload, h1, h2]

/-- Witness for claim C1 at a concrete directory and byte count. -/
theorem checkFreeSpace_eoverflow_warns_witness :
    CheckFreeSpaceBeforeDownload "/var" 1000 {}
        (Except.error StatErr.EOVERFLOW) none =
      { ok := true, errors := [],
        warnings := ["Could not determine free space in " ++ "/var"] } :=
  checkFreeSpace_eoverflow_warns "/var" 1000 {} none rfl rfl

/-- Claim C2: with block size 512 and 100 free blocks,
CheckFreeSpaceBeforeDownload accepts 40000 required bytes (78 blocks), denies
60000 required bytes (117 blocks) with the insufficient-space error on a
non-RAMFS filesystem, and accepts 60000 on a RAMFS filesystem. -/
theorem checkFreeSpace_block_arithmetic :
    CheckFreeSpaceBeforeDownload "/var" 40000 {}
        (Except.ok ⟨512, 100, 100⟩) (some ⟨0⟩) =
      { ok := true, errors := [], warnings := [] } ∧
    CheckFreeSpaceBeforeDownload "/var" 60000 {}
        (Except.ok ⟨512, 100, 100⟩) (some ⟨0⟩) =
      { ok := false,
        errors := ["You do not have enough free space in " ++ "/var"],
        warnings := [] } ∧
    CheckFreeSpaceBeforeDownload "/var" 60000 {}
        (Except.ok ⟨512, 100, 100⟩) (some ⟨RAMFS_MAGIC⟩) =
      { ok := true, errors := [], warnings := [] } :=
  ⟨rfl, rfl, rfl⟩

/-- Claim C4: when every item of the queue is trusted, CheckAuth accepts with
no prompt, no emitted output and no dependence on the configuration (the
equation holds for every cfg and every would-be prompt answer). -/
theorem checkAuth_all_trusted_accepts (items : List Item) (PromptUser : Bool)
    (cfg : Config) (ynAnswer : Bool) (h : ∀ i ∈ items, i.isTrusted = true) :
    CheckAuth items PromptUser cfg ynAnswer =
      { ok := true, prompted := false, errors := [], warnings := [],
        c2out := [] } := by
  have hf : items.filter (fun i => !i.isTrusted) = [] := by
    rw [List.filter_eq_nil_iff]
    intro a ha
    simp [h a ha]
  simp [CheckAuth, hf]

/-- Witness for claim C4 on a concrete one-item trusted queue. -/
theorem checkAuth_all_trusted_accepts_witness :
    CheckAuth [{ descURI := ⟨"http", "", "", "h", "/p"⟩, shortDesc := "pkg",
                 isTrusted := true, status := ItemState.StatDone,
                 complete := true, errorText := "" }] false {} false =
      { ok := true, prompted := false, errors := [], warnings := [],
        c2out := [] } :=
  checkAuth_all_trusted_accepts _ false {} false (by decide)

/-- Claim C5: with untrusted items present, allow-unauthenticated unset,
quiet at least 2 and neither assume-yes nor force-yes set, AuthPrompt denies
with an error, whether or not interactive confirmation is permitted. -/
theorem authPrompt_quiet_no_assume_denies (l : List String) (p yn : Bool)
    (cfg : Config) (_hl : l ≠ []) (h1 : cfg.allowUnauthenticated = false)
    (h2 : 2 ≤ cfg.quiet) (_h3 : cfg.assumeYes = false)
    (h4 : cfg.forceYes = false) :
    (AuthPrompt l p cfg yn).ok = false ∧ (AuthPrompt l p cfg yn).errors ≠ [] := by
  have hq : ¬ (cfg.quiet < 2 ∧ cfg.assumeYes = false) := by
    intro hc
    exact absurd hc.1 (not_lt.mpr h2)
  by_cases hp : p = false <;> simp [AuthPrompt, h1, h4, hq, hp]

/-- Witness for claim C5: one untrusted package, quiet level 2, both with and
without permission to prompt. -/
theorem authPrompt_quiet_no_assume_denies_witness :
    (["pkg"] ≠ ([] : List String)) ∧
    ((AuthPrompt ["pkg"] true { quiet := 2 } false).ok = false ∧
      (AuthPrompt ["pkg"] true { quiet := 2 } false).errors ≠ []) ∧
    ((AuthPrompt ["pkg"] false { quiet := 2 } true).ok = false ∧
      (AuthPrompt ["pkg"] false { quiet := 2 } true).errors ≠ []) :=
  ⟨by decide,
   authPrompt_quiet_no_assume_denies ["pkg"] true false { quiet := 2 }
     (by decide) rfl (by decide) rfl rfl,
   authPrompt_quiet_no_assume_denies ["pkg"] false true { quiet := 2 }
     (by decide) rfl (by decide) rfl rfl⟩

/-- Claim C6: ReproduciblePrompt takes the same accept/deny branch and the
same prompt decision as AuthPrompt on every list, prompt permission,
configuration and prompt answer, once the configuration key it consults
(allow-unreproducible) is substituted for allow-unauthenticated. -/
theorem reproduciblePrompt_matches_authPrompt (l : List String) (p yn : Bool)
    (cfg : Config) :
    (ReproduciblePrompt l p cfg yn).ok =
      (AuthPrompt l p
        { cfg with allowUnauthenticated := cfg.allowUnreproducible } yn).ok ∧
    (ReproduciblePrompt l p cfg yn).prompted =
      (AuthPrompt l p
        { cfg with allowUnauthenticated := cfg.allowUnreproducible } yn).prompted := by
  by_cases h1 : cfg.allowUnreproducible = true
  · simp [ReproduciblePrompt, AuthPrompt, h1]
  · by_cases h2 : p = false
    · simp [ReproduciblePrompt, AuthPrompt, h1, h2]
    · by_cases h3 : cfg.quiet < 2 ∧ cfg.assumeYes = false
      · by_cases h4 : yn = true <;>
          simp [ReproduciblePrompt, AuthPrompt, h1, h2, h3, h4]
      · by_cases h5 : cfg.forceYes = true <;>
          simp [ReproduciblePrompt, AuthPrompt, h1, h2, h3, h5]

/-- Helper: anything already in the accumulated error list of the AcquireRun
item loop stays in it. -/
theorem acquireRunLoop_mem_mono :
    ∀ (items : List Item) (f t : Option Bool) (errs : List String) (x : String),
      x ∈ errs → x ∈ (acquireRunLoop items f t errs).2.2 := by
  intro items
  induction items with
  | nil =>
    intro f t errs x hx
    simpa [acquireRunLoop] using hx
  | cons j rest ih =>
    intro f t errs x hx
    by_cases h1 : j.status = ItemState.StatDone ∧ j.complete = true
    · simpa [acquireRunLoop, h1] using ih f t errs x hx
    · by_cases h2 : t.isSome = true ∧ j.status = ItemState.StatIdle
      · simpa [acquireRunLoop, h1, h2] using ih f (some true) errs x hx
      · have hx2 : x ∈ errs ++ [fetchFailMsg j] := List.mem_append_left _ hx
        simpa [acquireRunLoop, h1, h2] using
          ih (f.map fun _ => true) t (errs ++ [fetchFailMsg j]) x hx2

/-- Helper: once the failure flag of the AcquireRun item loop holds true it
stays true. -/
theorem acquireRunLoop_failure_sticky :
    ∀ (items : List Item) (t : Option Bool) (errs : List String),
      (acquireRunLoop items (some true) t errs).1 = some true := by
  intro items
  induction items with
  | nil =>
    intro t errs
    simp [acquireRunLoop]
  | cons j rest ih =>
    intro t errs
    by_cases h1 : j.status = ItemState.StatDone ∧ j.complete = true
    · simpa [acquireRunLoop, h1] using ih t errs
    · by_cases h2 : t.isSome = true ∧ j.status = ItemState.StatIdle
      · simpa [acquireRunLoop, h1, h2] using ih (some true) errs
      · simpa [acquireRunLoop, h1, h2] using ih t (errs ++ [fetchFailMsg j])

/-- Helper: an item that reaches the hard-failure branch of the AcquireRun
item loop puts its fetch-failure message into the emitted errors and, when
the failure flag is supplied, forces that flag to true. -/
theorem acquireRunLoop_hardfail :
    ∀ (items : List Item) (f t : Option Bool) (errs : List String) (i : Item),
      i ∈ items →
      ¬(i.status = ItemState.StatDone ∧ i.complete = true) →
      (t.isSome = true → i.status ≠ ItemState.StatIdle) →
      fetchFailMsg i ∈ (acquireRunLoop items f t errs).2.2 ∧
        (∀ b : Bool, f = some b → (acquireRunLoop items f t errs).1 = some true) := by
  intro items
  induction items with
  | nil =>
    intro f t errs i hi
    cases hi
  | cons j rest ih =>
    intro f t errs i hi hnd hni
    rcases List.mem_cons.mp hi with heq | hmem
    · subst heq
      have h2 : ¬(t.isSome = true ∧ i.status = ItemState.StatIdle) := by
        rintro ⟨ht, hs⟩
        exact hni ht hs
      constructor
      · have hx : fetchFailMsg i ∈ errs ++ [fetchFailMsg i] := by simp
        simpa [acquireRunLoop, hnd, h2] using
          acquireRunLoop_mem_mono rest (f.map fun _ => true) t
            (errs ++ [fetchFailMsg i]) _ hx
      · intro b hb
        subst hb
        simpa [acquireRunLoop, hnd, h2] using
          acquireRunLoop_failure_sticky rest t (errs ++ [fetchFailMsg i])
    · by_cases h1 : j.status = ItemState.StatDone ∧ j.complete = true
      · simpa [acquireRunLoop, h1] using ih f t errs i hmem hnd hni
      · by_cases h2 : t.isSome = true ∧ j.status = ItemState.StatIdle
        · simpa [acquireRunLoop, h1, h2] using
            ih f (some true) errs i hmem hnd (fun _ => hni h2.1)
        · constructor
          · simpa [acquireRunLoop, h1, h2] using
              (ih (f.map fun _ => true) t (errs ++ [fetchFailMsg j]) i hmem hnd hni).1
          · intro b hb
            subst hb
            simpa [acquireRunLoop, h1, h2] using
              acquireRunLoop_failure_sticky rest t (errs ++ [fetchFailMsg j])

/-- Claim C3: after a run whose mechanism succeeded, an item in a terminal
error state (neither Done-and-complete nor Idle) makes AcquireRun return
true, set the supplied failure flag to true, and emit an error that contains
the item's recorded error text and is built from the URI with its user and
password cleared (the message does not change whatever credentials the URI
embeds). -/
theorem acquireRun_terminal_error_sanitized (res : RunResult)
    (items : List Item) (t : Option Bool) (b : Bool) (i : Item)
    (hres : res ≠ RunResult.Failed) (hi : i ∈ items)
    (hnd : ¬(i.status = ItemState.StatDone ∧ i.complete = true))
    (hni : i.status ≠ ItemState.StatIdle) :
    (AcquireRun res items (some b) t).ok = true ∧
    (AcquireRun res items (some b) t).failure = some true ∧
    fetchFailMsg i ∈ (AcquireRun res items (some b) t).errors ∧
    (∃ pre, fetchFailMsg i = pre ++ i.errorText) ∧
    (∀ u pw : String,
      fetchFailMsg
          { i with descURI := { i.descURI with user := u, password := pw } } =
        fetchFailMsg i) := by
  have hmain := acquireRunLoop_hardfail items (some b) t [] i hi hnd (fun _ => hni)
  refine ⟨?_, ?_, ?_, ?_, ?_⟩
  · simp [AcquireRun, hres]
  · simp only [AcquireRun, if_neg hres]
    exact hmain.2 b rfl
  · simp only [AcquireRun, if_neg hres]
    exact hmain.1
  · exact ⟨"Failed to fetch " ++
      (URI.toStr { i.descURI with user := "", password := "" }) ++ "  ", rfl⟩
  · intro u pw
    rfl

/-- Witness for claim C3: a two-item queue whose second item failed with an
error text, behind a URI embedding user alice and password secret. -/
theorem acquireRun_terminal_error_sanitized_witness :
    (RunResult.Continue ≠ RunResult.Failed) ∧
    (wTermErrItem ∈ [wDoneItem, wTermErrItem]) ∧
    ¬(wTermErrItem.status = ItemState.StatDone ∧ wTermErrItem.complete = true) ∧
    (wTermErrItem.status ≠ ItemState.StatIdle) ∧
    ((AcquireRun RunResult.Continue [wDoneItem, wTermErrItem] (some false) none).ok = true ∧
     (AcquireRun RunResult.Continue [wDoneItem, wTermErrItem] (some false) none).failure = some true ∧
     fetchFailMsg wTermErrItem ∈
       (AcquireRun RunResult.Continue [wDoneItem, wTermErrItem] (some false) none).errors ∧
     (∃ pre, fetchFailMsg wTermErrItem = pre ++ wTermErrItem.errorText) ∧
     (∀ u pw : String,
       fetchFailMsg
           { wTermErrItem with
             descURI := { wTermErrItem.descURI with user := u, password := pw } } =
         fetchFailMsg wTermErrItem)) :=
  ⟨by decide, List.mem_cons_of_mem _ (List.mem_cons_self _ _),
   by decide, by decide,
   acquireRun_terminal_error_sanitized RunResult.Continue
     [wDoneItem, wTermErrItem] none false wTermErrItem
     (by decide) (List.mem_cons_of_mem _ (List.mem_cons_self _ _))
     (by decide) (by decide)⟩

/-- Helper: over a queue whose items are all Done-and-complete or Idle, the
AcquireRun item loop leaves failure and errors untouched and keeps the
supplied transient flag present, forcing it to true when an Idle item
occurs. -/
theorem acquireRunLoop_doneidle :
    ∀ (items : List Item) (f : Option Bool) (b : Bool) (errs : List String),
      (∀ j ∈ items, (j.status = ItemState.StatDone ∧ j.complete = true) ∨
        j.status = ItemState.StatIdle) →
      ∃ b2 : Bool, acquireRunLoop items f (some b) errs = (f, some b2, errs) ∧
        (b = true → b2 = true) ∧
        ((∃ j ∈ items, j.status = ItemState.StatIdle) → b2 = true) := by
  intro items
  induction items with
  | nil =>
    intro f b errs _
    refine ⟨b, rfl, fun h => h, ?_⟩
    rintro ⟨j, hj, _⟩
    cases hj
  | cons j rest ih =>
    intro f b errs hall
    have hjall : ∀ k ∈ rest, (k.status = ItemState.StatDone ∧ k.complete = true) ∨
        k.status = ItemState.StatIdle :=
      fun k hk => hall k (List.mem_cons_of_mem _ hk)
    rcases hall j (List.mem_cons_self j rest) with hdone | hidle
    · obtain ⟨b2, heq, hb1, hb2⟩ := ih f b errs hjall
      refine ⟨b2, ?_, hb1, ?_⟩
      · simpa [acquireRunLoop, hdone] using heq
      · rintro ⟨k, hk, hks⟩
        rcases List.mem_cons.mp hk with heq2 | hk2
        · rw [heq2] at hks
          rw [hdone.1] at hks
          exact absurd hks (by decide)
        · exact hb2 ⟨k, hk2, hks⟩
    · have hnd : ¬(j.status = ItemState.StatDone ∧ j.complete = true) := by
        simp [hidle]
      obtain ⟨b2, heq, hb1, _⟩ := ih f true errs hjall
      refine ⟨b2, ?_, fun _ => hb1 rfl, fun _ => hb1 rfl⟩
      simpa [acquireRunLoop, hnd, hidle] using heq

/-- Claim C8: after a run whose mechanism succeeded, a queue in which every
item is Done-and-complete except Idle ones, with at least one Idle item and a
non-null transient-failure flag, makes AcquireRun return true, set the
transient flag to true, leave the failure flag unchanged and emit no
error. -/
theorem acquireRun_idle_sets_transient (res : RunResult) (items : List Item)
    (f : Option Bool) (b : Bool) (hres : res ≠ RunResult.Failed)
    (hall : ∀ j ∈ items, (j.status = ItemState.StatDone ∧ j.complete = true) ∨
      j.status = ItemState.StatIdle)
    (hidle : ∃ j ∈ items, j.status = ItemState.StatIdle) :
    AcquireRun res items f (some b) =
      { ok := true, failure := f, transient := some true, errors := [] } := by
  obtain ⟨b2, heq, _, hb2⟩ := acquireRunLoop_doneidle items f b [] hall
  have hb : b2 = true := hb2 hidle
  subst hb
  simp [AcquireRun, hres, heq]

/-- Witness for claim C8: one Done-and-complete item plus one Idle item, with
a transient flag supplied as false and no failure flag. -/
theorem acquireRun_idle_sets_transient_witness :
    (RunResult.Continue ≠ RunResult.Failed) ∧
    (∀ j ∈ [wDoneItem, wIdleItem],
      (j.status = ItemState.StatDone ∧ j.complete = true) ∨
        j.status = ItemState.StatIdle) ∧
    (∃ j ∈ [wDoneItem, wIdleItem], j.status = ItemState.StatIdle) ∧
    AcquireRun RunResult.Continue [wDoneItem, wIdleItem] none (some false) =
      { ok := true, failure := none, transient := some true, errors := [] } :=
  ⟨by decide, by decide,
   ⟨wIdleItem, List.mem_cons_of_mem _ (List.mem_cons_self _ _), rfl⟩,
   acquireRun_idle_sets_transient RunResult.Continue [wDoneItem, wIdleItem]
     none false (by decide) (by decide)
     ⟨wIdleItem, List.mem_cons_of_mem _ (List.mem_cons_self _ _), rfl⟩⟩

/-- Claim C10: after a run whose mechanism succeeded, an Idle item with a
null transient-failure pointer is treated as a hard failure: AcquireRun
returns true but emits the sanitized fetch-failure error for the item, and
sets the failure flag to true whenever one is supplied. -/
theorem acquireRun_idle_null_transient_hard (res : RunResult)
    (items : List Item) (f : Option Bool) (i : Item)
    (hres : res ≠ RunResult.Failed) (hi : i ∈ items)
    (hidle : i.status = ItemState.StatIdle) :
    (AcquireRun res items f none).ok = true ∧
    fetchFailMsg i ∈ (AcquireRun res items f none).errors ∧
    (∀ b : Bool, f = some b → (AcquireRun res items f none).failure = some true) := by
  have hnd : ¬(i.status = ItemState.StatDone ∧ i.complete = true) := by
    simp [hidle]
  have hni : ((none : Option Bool)).isSome = true → i.status ≠ ItemState.StatIdle := by
    intro h
    simp at h
  have hmain := acquireRunLoop_hardfail items f none [] i hi hnd hni
  refine ⟨?_, ?_, ?_⟩
  · simp [AcquireRun, hres]
  · simp only [AcquireRun, if_neg hres]
    exact hmain.1
  · intro b hb
    simp only [AcquireRun, if_neg hres]
    exact hmain.2 b hb

/-- Witness for claim C10: a single Idle item, a null transient pointer and a
failure flag supplied as false. -/
theorem acquireRun_idle_null_transient_hard_witness :
    (RunResult.Continue ≠ RunResult.Failed) ∧
    (wIdleItem ∈ [wIdleItem]) ∧
    (wIdleItem.status = ItemState.StatIdle) ∧
    ((AcquireRun RunResult.Continue [wIdleItem] (some false) none).ok = true ∧
     fetchFailMsg wIdleItem ∈
       (AcquireRun RunResult.Continue [wIdleItem] (some false) none).errors ∧
     (∀ b : Bool, (some false : Option Bool) = some b →
       (AcquireRun RunResult.Continue [wIdleItem] (some false) none).failure =
         some true)) :=
  ⟨by decide, List.mem_cons_self _ _, rfl,
   acquireRun_idle_null_transient_hard RunResult.Continue [wIdleItem]
     (some false) wIdleItem (by decide) (List.mem_cons_self _ _) rfl⟩

/-- Helper: when some item of the queue suffers a subprocess failure, the
per-item loop of CheckReproducible aborts with one of the two hard-error
messages, whatever was accumulated so far. -/
theorem reproLoop_error_of_fail (env : ReproEnv) :
    ∀ (items : List Item) (acc : List String),
      (∃ i ∈ items, itemSubprocFails env i) →
      ∃ e, reproLoop env items acc = Except.error e ∧
        (e = "Could not check source package name" ∨
          e = "Could not filter reproducible status") := by
  intro items
  induction items with
  | nil =>
    intro acc hf
    rcases hf with ⟨i, hi, _⟩
    cases hi
  | cons j rest ih =>
    intro acc hf
    cases hsrc : env.sourcePackageOutput j.shortDesc with
    | none =>
      exact ⟨_, by simp [reproLoop, hsrc], Or.inl rfl⟩
    | some out =>
      cases hjq : env.jqOutput (reproResolveSrc j.shortDesc out) with
      | none =>
        exact ⟨_, by simp [reproLoop, hsrc, hjq], Or.inr rfl⟩
      | some jout =>
        have hrest : ∃ i ∈ rest, itemSubprocFails env i := by
          rcases hf with ⟨i, hi, hif⟩
          rcases List.mem_cons.mp hi with heq | hmem
          · subst heq
            rcases hif with h | ⟨out2, hout2, hjq2⟩
            · rw [hsrc] at h
              cases h
            · rw [hsrc] at hout2
              cases hout2
              rw [hjq] at hjq2
              cases hjq2
          · exact ⟨i, hmem, hif⟩
        obtain ⟨e, heq, hor⟩ :=
          ih (if jout.length = 0 then acc ++ [j.shortDesc] else acc) hrest
        exact ⟨e, by simpa [reproLoop, hsrc, hjq] using heq, hor⟩

/-- Claim C7: when the reproducibility check actually runs (the
allow-unreproducible override is unset), a failure of the status-feed
refresh subprocess, or of any item's source-package lookup or snapshot
filter subprocess, makes CheckReproducible return a hard error: result
false, no prompt, and exactly one of the three hard-error messages. -/
theorem checkReproducible_subprocess_hard_error (items : List Item)
    (PromptUser : Bool) (cfg : Config) (env : ReproEnv) (ynAnswer : Bool)
    (hAllow : cfg.allowUnreproducible = false)
    (hfail : env.updateOutput = none ∨ ∃ i ∈ items, itemSubprocFails env i) :
    (CheckReproducible items PromptUser cfg env ynAnswer).ok = false ∧
    (CheckReproducible items PromptUser cfg env ynAnswer).prompted = false ∧
    ∃ e, (CheckReproducible items PromptUser cfg env ynAnswer).errors = [e] ∧
      (e = "Could not update reproducible cache" ∨
        e = "Could not check source package name" ∨
        e = "Could not filter reproducible status") := by
  cases hupd : env.updateOutput with
  | none =>
    refine ⟨?_, ?_, ?_⟩ <;> simp [CheckReproducible, hAllow, hupd]
  | some u =>
    rcases hfail with h | h
    · rw [hupd] at h
      cases h
    · obtain ⟨e, heq, hor⟩ := reproLoop_error_of_fail env items [] h
      refine ⟨?_, ?_, ⟨e, ?_, ?_⟩⟩
      · simp [CheckReproducible, hAllow, hupd, heq]
      · simp [CheckReproducible, hAllow, hupd, heq]
      · simp [CheckReproducible, hAllow, hupd, heq]
      · rcases hor with h1 | h1 <;> simp [h1]

/-- Witness for claim C7: a one-item queue whose jq snapshot-filter
subprocess fails while the feed refresh and the source-package lookup
succeed. -/
theorem checkReproducible_subprocess_hard_error_witness :
    (({} : Config).allowUnreproducible = false) ∧
    (wReproEnv.updateOutput = none ∨ ∃ i ∈ [wReproItem], itemSubprocFails wReproEnv i) ∧
    ((CheckReproducible [wReproItem] true {} wReproEnv true).ok = false ∧
     (CheckReproducible [wReproItem] true {} wReproEnv true).prompted = false ∧
     ∃ e, (CheckReproducible [wReproItem] true {} wReproEnv true).errors = [e] ∧
       (e = "Could not update reproducible cache" ∨
         e = "Could not check source package name" ∨
         e = "Could not filter reproducible status")) :=
  ⟨rfl, Or.inr ⟨wReproItem, by simp, Or.inr ⟨"rsrc", rfl, rfl⟩⟩,
   checkReproducible_subprocess_hard_error [wReproItem] true {} wReproEnv true
     rfl (Or.inr ⟨wReproItem, by simp, Or.inr ⟨"rsrc", rfl, rfl⟩⟩)⟩

/-- Claim C9: in simulation mode the auto-clean deletion hook logs exactly
one Del line, with package, version and size, for every obsolete archive it
is called on, and the disk holds exactly the same files afterward. -/
theorem logCleaner_simulate_frame (cfg : Config)
    (cands : List CleanCandidate) (fs : List String)
    (hsim : cfg.simulate = true) :
    (LogCleaner.Go cfg cands fs).1 = cands.map LogCleaner.EraseLine ∧
    (LogCleaner.Go cfg cands fs).2 = fs := by
  induction cands generalizing fs with
  | nil => simp [LogCleaner.Go]
  | cons c rest ih =>
    have herase : LogCleaner.Erase cfg c fs = ([LogCleaner.EraseLine c], fs) := by
      simp [LogCleaner.Erase, hsim]
    obtain ⟨ih1, ih2⟩ := ih fs
    constructor
    · simp [LogCleaner.Go, herase, ih1]
    · simp [LogCleaner.Go, herase, ih2]

/-- Witness for claim C9: one obsolete archive against a two-file disk under
simulation mode. -/
theorem logCleaner_simulate_frame_witness :
    (({ simulate := true } : Config).simulate = true) ∧
    ((LogCleaner.Go { simulate := true } [wCand] ["a.deb", "b.deb"]).1 =
        [wCand].map LogCleaner.EraseLine ∧
      (LogCleaner.Go { simulate := true } [wCand] ["a.deb", "b.deb"]).2 =
        ["a.deb", "b.deb"]) :=
  ⟨rfl, logCleaner_simulate_frame { simulate := true } [wCand]
    ["a.deb", "b.deb"] rfl⟩
